import Mathlib

/-!
Verification of `TestRunner/dummy_project.py` (class `DummyProject`).

The Python module manages a "dummy" Xcode project used to run prebuilt iOS
test bundles.  We shallowly embed it here:

* paths are `String`s manipulated with faithful models of `os.path.join`,
  `os.path.basename` and `str.split('.')[0]`;
* the pbxproj descriptor (`objects` dictionary) is a structure holding the
  association lists (`buildSettings` dictionaries) and target records the
  code touches, addressed by the same keys;
* the filesystem is a read-only oracle `FS` (existence checks) plus an
  explicit list of `Effect`s describing every mutation the code performs;
* exceptions become an `Except` with an `IosError` inductive;
* the external collaborators (bundle inspector, provisioning profile
  manager) are an `Env` of uninterpreted functions.
-/

namespace DummyProjectModel

/-- Model of `os.path.basename` (posixpath): the portion of the string after
the last `'/'`. -/
def osPathBasename (s : String) : String :=
  String.mk ((s.data.reverse.takeWhile (fun c => c ≠ '/')).reverse)

/-- Model of two-argument `os.path.join` (posixpath): if `b` is absolute the
result is `b`; otherwise `a` and `b` joined with `'/'` unless `a` is empty or
already ends with `'/'`. -/
def osPathJoin (a b : String) : String :=
  if b.data.head? = some '/' then b
  else if a = "" ∨ a.data.getLast? = some '/' then a ++ b
  else a ++ "/" ++ b

/-- Model of Python `s.split('.')[0]`: the characters before the first `'.'`
(the whole string when it has no dot). -/
def splitDotHead (s : String) : String :=
  String.mk (s.data.takeWhile (fun c => c ≠ '.'))

/-- Dictionary lookup on an association list (Python `d[k]` read /
`k in d`). -/
def getKey : List (String × String) → String → Option String
  | [], _ => none
  | (k', v) :: rest, k => if k' = k then some v else getKey rest k

/-- Dictionary assignment on an association list (Python `d[k] = v`):
replace the first binding of `k`, or append a new one. -/
def setKey : List (String × String) → String → String → List (String × String)
  | [], k, v => [(k, v)]
  | (k', v') :: rest, k, v =>
    if k' = k then (k, v) :: rest else (k', v') :: setKey rest k v

/-- SDKs supported by the module (`ios_constants.SDK`). -/
inductive SDK where
  | iphonesimulator
  | iphoneos
deriving DecidableEq

/-- The string value of each SDK constant. -/
def SDK.toName : SDK → String
  | .iphonesimulator => "iphonesimulator"
  | .iphoneos => "iphoneos"

/-- Test types supported by the module (`ios_constants.TestType`). -/
inductive TestType where
  | xctest
  | xcuitest
deriving DecidableEq

/-- The string value of each test-type constant. -/
def TestType.toName : TestType → String
  | .xctest => "xctest"
  | .xcuitest => "xcuitest"

/-- `_DEFAULT_PERMS = 0777`. -/
def defaultPerms : Nat := 0o777

/-- `_SIGNAL_BUILD_FOR_TESTING_SUCCEED`. -/
def signalBuildForTestingSucceed : String := "** TEST BUILD SUCCEEDED **"

/-- A filesystem mutation performed by the code. -/
inductive Effect where
  | mkdir (path : String)
  | makedirs (path : String)
  | mkdtemp (path : String)
  | writeFile (path : String)
  | copytree (src dst : String)
  | chmodTree (path : String) (perms : Nat)
  | writePlist (path : String)
  | installProfile (path : String)
  | runXcodebuild (command : List String)
  | rmtree (path : String)
deriving DecidableEq

/-- Errors raised by the module (`ios_errors` plus
`subprocess.CalledProcessError`). -/
inductive IosError where
  | illegalArgument (msg : String)
  | buildFailure (output : String)
  | calledProcessError (returncode : Int) (output : String)
deriving DecidableEq

/-- Read-only filesystem oracle: which paths exist (`os.path.exists`). -/
structure FS where
  pathExists : String → Bool

/-- External collaborators: the bundle inspector (`bundle_util`) and the
provisioning-profile reader (`provisioning_profile.ProvisiongProfile(...).name`),
each a function of the bundle/profile path it is asked about. -/
structure Env where
  getMinimumOSVersion : String → String
  getBundleId : String → String
  getDevelopmentTeam : String → String
  getCodesignIdentity : String → String
  profileName : String → String

/-- A build target record in the pbxproj `objects` dictionary; the code
touches its `name` and `productName` entries. -/
structure Target where
  name : String
  productName : String
deriving DecidableEq

/-- The parts of the pbxproj `objects` dictionary the code addresses, one
field per key: the `buildSettings` dictionaries of
`TestProjectBuildConfig`, `AppUnderTestBuildConfig`,
`XCUITestBundleBuildConfig`, `XCTestBundleBuildConfig`, and the target
records `AppUnderTestTarget`, `XCUITestBundleTarget`, `XCTestBundleTarget`. -/
structure PbxprojObjects where
  testProjectBuildSettings : List (String × String)
  appUnderTestBuildSettings : List (String × String)
  xcuitestBundleBuildSettings : List (String × String)
  xctestBundleBuildSettings : List (String × String)
  appUnderTestTarget : Target
  xcuitestBundleTarget : Target
  xctestBundleTarget : Target
deriving DecidableEq

/-- The mutable state of a `DummyProject` instance. -/
structure DummyProject where
  appUnderTestDir : String
  testBundleDir : String
  sdk : SDK
  testType : TestType
  workDir : Option String
  dummyProjectPath : Option String
  xcodeprojDirPath : Option String
  pbxprojFilePath : Option String
  isDummyProjectGenerated : Bool
  deleteWorkDir : Bool
  testScheme : String
deriving DecidableEq

/-- The scheme name chosen for a test type
(`_DUMMYPROJECT_XCTESTS_SCHEME` / `_DUMMYPROJECT_XCUITESTS_SCHEME`). -/
def testSchemeName : TestType → String
  | .xctest => "TestProjectXctest"
  | .xcuitest => "TestProjectXcuitest"

/-- `DummyProject.__init__`.  With `SDK` and `TestType` restricted to the
supported constants, `_ValidateArguments` never raises, so construction is
total. -/
def DummyProject.init (appUnderTestDir testBundleDir : String) (sdk : SDK)
    (testType : TestType) (workDir : Option String) : DummyProject :=
  { appUnderTestDir := appUnderTestDir
    testBundleDir := testBundleDir
    sdk := sdk
    testType := testType
    workDir := workDir.map (fun w => osPathJoin w "dummy_project")
    dummyProjectPath := none
    xcodeprojDirPath := none
    pbxprojFilePath := none
    isDummyProjectGenerated := false
    deleteWorkDir := false
    testScheme := testSchemeName testType }

/-- `test_scheme_path` property:
`os.path.join(xcodeproj_dir_path, 'xcshareddata/xcschemes', scheme + '.xcscheme')`
(meaningful once the project has been generated). -/
def DummyProject.testSchemePath (p : DummyProject) : Option String :=
  p.xcodeprojDirPath.map (fun d =>
    osPathJoin (osPathJoin d "xcshareddata/xcschemes")
      (p.testScheme ++ ".xcscheme"))

/-- `_SetIosDeploymentTarget`: writes
`objects:TestProjectBuildConfig:buildSettings:IPHONEOS_DEPLOYMENT_TARGET`
from the app-under-test's minimum OS version. -/
def setIosDeploymentTarget (env : Env) (p : DummyProject)
    (objs : PbxprojObjects) : PbxprojObjects :=
  { objs with
    testProjectBuildSettings :=
      setKey objs.testProjectBuildSettings "IPHONEOS_DEPLOYMENT_TARGET"
        (env.getMinimumOSVersion p.appUnderTestDir) }

/-- `_SetPbxprojForXcuitest`: on-device signing of the XCUITest bundle
config, then the target/product renames and project-level name keys. -/
def setPbxprojForXcuitest (env : Env) (p : DummyProject)
    (objs : PbxprojObjects) : PbxprojObjects :=
  let objs :=
    if p.sdk = SDK.iphoneos then
      let buildSetting := objs.xcuitestBundleBuildSettings
      let buildSetting := setKey buildSetting "PRODUCT_BUNDLE_IDENTIFIER"
        (env.getBundleId p.testBundleDir)
      let buildSetting := setKey buildSetting "DEVELOPMENT_TEAM"
        (env.getDevelopmentTeam p.testBundleDir)
      let embeddedProvisionName := env.profileName
        (osPathJoin p.appUnderTestDir "embedded.mobileprovision")
      let buildSetting :=
        if embeddedProvisionName = "iOS Team Provisioning Profile: *" then
          setKey buildSetting "CODE_SIGN_IDENTITY" "iPhone Developer"
        else
          setKey
            (setKey buildSetting "CODE_SIGN_IDENTITY"
              (env.getCodesignIdentity p.testBundleDir))
            "PROVISIONING_PROFILE_SPECIFIER" embeddedProvisionName
      { objs with xcuitestBundleBuildSettings := buildSetting }
    else objs
  let appUnderTestName := splitDotHead (osPathBasename p.appUnderTestDir)
  let testBundleName := splitDotHead (osPathBasename p.testBundleDir)
  { objs with
    appUnderTestTarget := ⟨appUnderTestName, appUnderTestName⟩
    xcuitestBundleTarget := ⟨testBundleName, testBundleName⟩
    testProjectBuildSettings :=
      setKey
        (setKey objs.testProjectBuildSettings "APP_UNDER_TEST_NAME"
          appUnderTestName)
        "XCUITEST_BUNDLE_NAME" testBundleName }

/-- `_SetPbxprojForXctest`: on-device signing of both the app-under-test and
XCTest bundle configs, then the target/product renames and project-level
name keys. -/
def setPbxprojForXctest (env : Env) (p : DummyProject)
    (objs : PbxprojObjects) : PbxprojObjects :=
  let objs :=
    if p.sdk = SDK.iphoneos then
      let autBuildSetting := objs.appUnderTestBuildSettings
      let testBuildSetting := objs.xctestBundleBuildSettings
      let autBuildSetting := setKey autBuildSetting "CODE_SIGNING_REQUIRED" "YES"
      let autBuildSetting := setKey autBuildSetting "PRODUCT_BUNDLE_IDENTIFIER"
        (env.getBundleId p.appUnderTestDir)
      let embeddedProvisionName := env.profileName
        (osPathJoin p.appUnderTestDir "embedded.mobileprovision")
      let (autBuildSetting, testBuildSetting) :=
        if embeddedProvisionName = "iOS Team Provisioning Profile: *" then
          let autBS := setKey autBuildSetting "CODE_SIGN_IDENTITY" "iPhone Developer"
          let testBS := setKey testBuildSetting "CODE_SIGN_IDENTITY" "iPhone Developer"
          let appUnderTestDevTeam := env.getDevelopmentTeam p.appUnderTestDir
          (setKey autBS "DEVELOPMENT_TEAM" appUnderTestDevTeam,
           setKey testBS "DEVELOPMENT_TEAM" appUnderTestDevTeam)
        else
          let appUnderTestSignIdentity := env.getCodesignIdentity p.appUnderTestDir
          let autBS := setKey autBuildSetting "CODE_SIGN_IDENTITY"
            appUnderTestSignIdentity
          let testBS := setKey testBuildSetting "CODE_SIGN_IDENTITY"
            appUnderTestSignIdentity
          (setKey autBS "PROVISIONING_PROFILE_SPECIFIER" embeddedProvisionName,
           testBS)
      { objs with
        appUnderTestBuildSettings := autBuildSetting
        xctestBundleBuildSettings := testBuildSetting }
    else objs
  let appUnderTestName := splitDotHead (osPathBasename p.appUnderTestDir)
  let testBundleName := splitDotHead (osPathBasename p.testBundleDir)
  { objs with
    appUnderTestTarget := ⟨appUnderTestName, appUnderTestName⟩
    xctestBundleTarget := ⟨testBundleName, testBundleName⟩
    testProjectBuildSettings :=
      setKey
        (setKey objs.testProjectBuildSettings "APP_UNDER_TEST_NAME"
          appUnderTestName)
        "XCTEST_BUNDLE_NAME" testBundleName }

/-- The whole descriptor patch applied during generation: deployment target
first, then the test-type specific patch. -/
def patchPbxproj (env : Env) (p : DummyProject) (objs : PbxprojObjects) :
    PbxprojObjects :=
  let objs := setIosDeploymentTarget env p objs
  match p.testType with
  | .xcuitest => setPbxprojForXcuitest env p objs
  | .xctest => setPbxprojForXctest env p objs

/-- `_GetTestProject`: returns the template path
`<work_dir>/Resource/TestProject`, materializing it from embedded resource
bytes (two `makedirs`, three file writes) when it does not yet exist. -/
def getTestProject (fs : FS) (workDir : String) : String × List Effect :=
  let testProjectPath := osPathJoin workDir "Resource/TestProject"
  if fs.pathExists testProjectPath then (testProjectPath, [])
  else
    let xcodeprojPath := osPathJoin testProjectPath "TestProject.xcodeproj"
    let xcschemesPath := osPathJoin xcodeprojPath "xcshareddata/xcschemes"
    (testProjectPath,
      [Effect.makedirs xcodeprojPath,
       Effect.writeFile (osPathJoin xcodeprojPath "project.pbxproj"),
       Effect.makedirs xcschemesPath,
       Effect.writeFile (osPathJoin xcschemesPath "TestProjectXctest.xcscheme"),
       Effect.writeFile (osPathJoin xcschemesPath "TestProjectXcuitest.xcscheme")])

/-- `GenerateDummyProject`.  `freshTempDir` is the directory name
`tempfile.mkdtemp()` would allocate.  Returns the updated instance, the
patched descriptor contents, and the filesystem effects performed in
order. -/
def generateDummyProject (env : Env) (fs : FS) (freshTempDir : String)
    (p : DummyProject) (objs : PbxprojObjects) :
    DummyProject × PbxprojObjects × List Effect :=
  if p.isDummyProjectGenerated then (p, objs, [])
  else
    let wdRes : String × Bool × List Effect :=
      match p.workDir with
      | some wd =>
        (wd, p.deleteWorkDir,
         if fs.pathExists wd then [] else [Effect.mkdir wd])
      | none => (freshTempDir, true, [Effect.mkdtemp freshTempDir])
    let workDir := wdRes.1
    let dummyProjectPath := osPathJoin workDir "TestProject"
    let tplRes := getTestProject fs workDir
    let xcodeprojDirPath := osPathJoin dummyProjectPath "TestProject.xcodeproj"
    let pbxprojFilePath := osPathJoin xcodeprojDirPath "project.pbxproj"
    let p' := { p with
      workDir := some workDir
      deleteWorkDir := wdRes.2.1
      dummyProjectPath := some dummyProjectPath
      xcodeprojDirPath := some xcodeprojDirPath
      pbxprojFilePath := some pbxprojFilePath
      isDummyProjectGenerated := true }
    let objs' := patchPbxproj env p' objs
    let patchEffects : List Effect :=
      (if p.sdk = SDK.iphoneos then
        [Effect.installProfile
          (osPathJoin p.appUnderTestDir "embedded.mobileprovision")]
      else []) ++ [Effect.writePlist pbxprojFilePath]
    (p', objs',
      wdRes.2.2 ++ tplRes.2 ++
      [Effect.copytree tplRes.1 dummyProjectPath,
       Effect.chmodTree dummyProjectPath defaultPerms,
       Effect.writePlist pbxprojFilePath] ++ patchEffects)

/-- `Close`: removes the work directory only when it was auto-allocated
(`_delete_work_dir`) and still exists. -/
def close (fs : FS) (p : DummyProject) : List Effect :=
  if p.deleteWorkDir then
    match p.workDir with
    | some wd => if fs.pathExists wd then [Effect.rmtree wd] else []
    | none => []
  else []

/-- The signing-related build-settings keys named by the spec. -/
def signingKeys : List String :=
  ["PRODUCT_BUNDLE_IDENTIFIER", "DEVELOPMENT_TEAM", "CODE_SIGN_IDENTITY",
   "PROVISIONING_PROFILE_SPECIFIER", "CODE_SIGNING_REQUIRED"]

theorem getKey_setKey : ∀ (l : List (String × String)) (k v k' : String),
    getKey (setKey l k v) k' = if k' = k then some v else getKey l k' := by
  intro l k v
  induction l with
  | nil =>
    intro k'
    simp only [setKey, getKey]
    by_cases h : k' = k
    · simp [h]
    · have h2 : ¬k = k' := fun hh => h hh.symm
      simp [h, h2]
  | cons a rest ih =>
    intro k'
    obtain ⟨ak, av⟩ := a
    simp only [setKey]
    by_cases hak : ak = k
    · subst hak
      simp only [if_pos rfl, getKey]
      by_cases h : k' = ak
      · simp [h]
      · have h2 : ¬ak = k' := fun hh => h hh.symm
        simp [h, h2]
    · simp only [if_neg hak, getKey]
      by_cases hk' : ak = k'
      · subst hk'
        simp [getKey, hak]
      · simp [getKey, hk', ih k']

theorem generate_sets_flag (env : Env) (fs : FS) (freshTempDir : String)
    (p : DummyProject) (objs : PbxprojObjects) :
    ((generateDummyProject env fs freshTempDir p objs).1).isDummyProjectGenerated
      = true := by
  unfold generateDummyProject
  split
  · next h => exact h
  · rfl

/-- C1: `GenerateDummyProject` is idempotent: once generated, a second call
(under any filesystem/temp-dir circumstances) returns the state and the
descriptor unchanged and performs no filesystem effect, so the resolved
pbxproj path and scheme path are identical across calls. -/
theorem generateDummyProject_idempotent (env₁ env₂ : Env) (fs₁ fs₂ : FS)
    (fresh₁ fresh₂ : String) (p : DummyProject) (objs : PbxprojObjects) :
    generateDummyProject env₂ fs₂ fresh₂
        (generateDummyProject env₁ fs₁ fresh₁ p objs).1
        (generateDummyProject env₁ fs₁ fresh₁ p objs).2.1
      = ((generateDummyProject env₁ fs₁ fresh₁ p objs).1,
         (generateDummyProject env₁ fs₁ fresh₁ p objs).2.1, ([] : List Effect))
    ∧ ((generateDummyProject env₂ fs₂ fresh₂
        (generateDummyProject env₁ fs₁ fresh₁ p objs).1
        (generateDummyProject env₁ fs₁ fresh₁ p objs).2.1).1).pbxprojFilePath
      = ((generateDummyProject env₁ fs₁ fresh₁ p objs).1).pbxprojFilePath
    ∧ ((generateDummyProject env₂ fs₂ fresh₂
        (generateDummyProject env₁ fs₁ fresh₁ p objs).1
        (generateDummyProject env₁ fs₁ fresh₁ p objs).2.1).1).testSchemePath
      = ((generateDummyProject env₁ fs₁ fresh₁ p objs).1).testSchemePath := by
  have h := generate_sets_flag env₁ fs₁ fresh₁ p objs
  have hsecond : generateDummyProject env₂ fs₂ fresh₂
      (generateDummyProject env₁ fs₁ fresh₁ p objs).1
      (generateDummyProject env₁ fs₁ fresh₁ p objs).2.1
      = ((generateDummyProject env₁ fs₁ fresh₁ p objs).1,
         (generateDummyProject env₁ fs₁ fresh₁ p objs).2.1,
         ([] : List Effect)) := by
    rw [generateDummyProject]
    simp [h]
  exact ⟨hsecond, by rw [hsecond], by rw [hsecond]⟩

/-- A concrete environment used for witnesses: a specific (non-wildcard)
embedded provisioning profile. -/
def envC : Env :=
  { getMinimumOSVersion := fun _ => "9.3"
    getBundleId := fun _ => "com.example.app"
    getDevelopmentTeam := fun _ => "TEAMID99"
    getCodesignIdentity := fun _ => "iPhone Developer: Someone (ABC123)"
    profileName := fun _ => "Some Specific Profile" }

/-- A concrete environment whose embedded profile is the wildcard sentinel. -/
def envWild : Env :=
  { envC with profileName := fun _ => "iOS Team Provisioning Profile: *" }

/-- Concrete template descriptor contents used for witnesses (no signing
keys present, as the template ships with toolchain defaults). -/
def objsC : PbxprojObjects :=
  { testProjectBuildSettings := [("PRODUCT_NAME", "TestProject")]
    appUnderTestBuildSettings := []
    xcuitestBundleBuildSettings := []
    xctestBundleBuildSettings := []
    appUnderTestTarget := ⟨"AppUnderTestTarget", "AppUnderTestTarget"⟩
    xcuitestBundleTarget := ⟨"XCUITestBundleTarget", "XCUITestBundleTarget"⟩
    xctestBundleTarget := ⟨"XCTestBundleTarget", "XCTestBundleTarget"⟩ }

/-- A concrete device-target harness. -/
def pDev : DummyProject :=
  DummyProject.init "/x/App.app" "/y/Tests.xctest" SDK.iphoneos
    TestType.xcuitest none

/-- A concrete simulator-target harness. -/
def pSim : DummyProject :=
  DummyProject.init "/x/App.app" "/y/Tests.xctest" SDK.iphonesimulator
    TestType.xcuitest none

/-- C2: device-target signing policy, for both test-type patches.  With the
wildcard sentinel profile the patched settings carry code-sign identity
"iPhone Developer" and (when the template has none) still no
provisioning-profile specifier; with a specific profile they carry the
inspector-reported codesign identity of the inspected bundle (test bundle
for XCUITest, app under test for XCTest) and the profile name as specifier
(on the app-under-test settings for XCTest). -/
theorem device_signing_policy (env : Env) (p : DummyProject)
    (objs : PbxprojObjects) (hsdk : p.sdk = SDK.iphoneos) :
    (env.profileName (osPathJoin p.appUnderTestDir "embedded.mobileprovision")
        = "iOS Team Provisioning Profile: *" →
      getKey (setPbxprojForXcuitest env p objs).xcuitestBundleBuildSettings
          "CODE_SIGN_IDENTITY" = some "iPhone Developer"
      ∧ (getKey objs.xcuitestBundleBuildSettings "PROVISIONING_PROFILE_SPECIFIER"
            = none →
          getKey (setPbxprojForXcuitest env p objs).xcuitestBundleBuildSettings
            "PROVISIONING_PROFILE_SPECIFIER" = none)
      ∧ getKey (setPbxprojForXctest env p objs).appUnderTestBuildSettings
          "CODE_SIGN_IDENTITY" = some "iPhone Developer"
      ∧ getKey (setPbxprojForXctest env p objs).xctestBundleBuildSettings
          "CODE_SIGN_IDENTITY" = some "iPhone Developer"
      ∧ (getKey objs.appUnderTestBuildSettings "PROVISIONING_PROFILE_SPECIFIER"
            = none →
          getKey (setPbxprojForXctest env p objs).appUnderTestBuildSettings
            "PROVISIONING_PROFILE_SPECIFIER" = none)
      ∧ (getKey objs.xctestBundleBuildSettings "PROVISIONING_PROFILE_SPECIFIER"
            = none →
          getKey (setPbxprojForXctest env p objs).xctestBundleBuildSettings
            "PROVISIONING_PROFILE_SPECIFIER" = none))
    ∧ (env.profileName (osPathJoin p.appUnderTestDir "embedded.mobileprovision")
        ≠ "iOS Team Provisioning Profile: *" →
      getKey (setPbxprojForXcuitest env p objs).xcuitestBundleBuildSettings
          "CODE_SIGN_IDENTITY"
        = some (env.getCodesignIdentity p.testBundleDir)
      ∧ getKey (setPbxprojForXcuitest env p objs).xcuitestBundleBuildSettings
          "PROVISIONING_PROFILE_SPECIFIER"
        = some (env.profileName
            (osPathJoin p.appUnderTestDir "embedded.mobileprovision"))
      ∧ getKey (setPbxprojForXctest env p objs).appUnderTestBuildSettings
          "CODE_SIGN_IDENTITY"
        = some (env.getCodesignIdentity p.appUnderTestDir)
      ∧ getKey (setPbxprojForXctest env p objs).xctestBundleBuildSettings
          "CODE_SIGN_IDENTITY"
        = some (env.getCodesignIdentity p.appUnderTestDir)
      ∧ getKey (setPbxprojForXctest env p objs).appUnderTestBuildSettings
          "PROVISIONING_PROFILE_SPECIFIER"
        = some (env.profileName
            (osPathJoin p.appUnderTestDir "embedded.mobileprovision"))) := by
  constructor
  · intro hw
    refine ⟨?_, ?_, ?_, ?_, ?_, ?_⟩ <;>
      simp +decide [setPbxprojForXcuitest, setPbxprojForXctest, hsdk, hw,
        getKey_setKey]
  · intro hw
    refine ⟨?_, ?_, ?_, ?_, ?_⟩ <;>
      simp +decide [setPbxprojForXcuitest, setPbxprojForXctest, hsdk, hw,
        getKey_setKey]

/-- Witness for C2 at a concrete wildcard-profile device harness. -/
theorem device_signing_policy_witness :
    pDev.sdk = SDK.iphoneos
    ∧ getKey objsC.xcuitestBundleBuildSettings "PROVISIONING_PROFILE_SPECIFIER"
        = none
    ∧ getKey (setPbxprojForXcuitest envWild pDev objsC).xcuitestBundleBuildSettings
        "CODE_SIGN_IDENTITY" = some "iPhone Developer"
    ∧ getKey (setPbxprojForXcuitest envWild pDev objsC).xcuitestBundleBuildSettings
        "PROVISIONING_PROFILE_SPECIFIER" = none
    ∧ getKey (setPbxprojForXcuitest envC pDev objsC).xcuitestBundleBuildSettings
        "PROVISIONING_PROFILE_SPECIFIER" = some "Some Specific Profile" := by
  have hwild := (device_signing_policy envWild pDev objsC rfl).1 rfl
  have hspec := (device_signing_policy envC pDev objsC rfl).2 (by decide)
  exact ⟨rfl, rfl, hwild.1, hwild.2.1 rfl, hspec.2.1⟩

/-- C3: on the simulator SDK no signing-related build-settings key is
written by the generation-time descriptor patch: the per-bundle settings
records are untouched, signing keys in the project-level settings are
unchanged, and the project-level settings receive exactly the deployment
target and the two naming keys. -/
theorem simulator_no_signing (env : Env) (p : DummyProject)
    (objs : PbxprojObjects) (k : String)
    (hsdk : p.sdk = SDK.iphonesimulator) (hk : k ∈ signingKeys) :
    (patchPbxproj env p objs).appUnderTestBuildSettings
        = objs.appUnderTestBuildSettings
    ∧ (patchPbxproj env p objs).xcuitestBundleBuildSettings
        = objs.xcuitestBundleBuildSettings
    ∧ (patchPbxproj env p objs).xctestBundleBuildSettings
        = objs.xctestBundleBuildSettings
    ∧ getKey (patchPbxproj env p objs).testProjectBuildSettings k
        = getKey objs.testProjectBuildSettings k
    ∧ (p.testType = TestType.xcuitest →
        (patchPbxproj env p objs).testProjectBuildSettings
          = setKey
              (setKey
                (setKey objs.testProjectBuildSettings
                  "IPHONEOS_DEPLOYMENT_TARGET"
                  (env.getMinimumOSVersion p.appUnderTestDir))
                "APP_UNDER_TEST_NAME"
                (splitDotHead (osPathBasename p.appUnderTestDir)))
              "XCUITEST_BUNDLE_NAME"
              (splitDotHead (osPathBasename p.testBundleDir)))
    ∧ (p.testType = TestType.xctest →
        (patchPbxproj env p objs).testProjectBuildSettings
          = setKey
              (setKey
                (setKey objs.testProjectBuildSettings
                  "IPHONEOS_DEPLOYMENT_TARGET"
                  (env.getMinimumOSVersion p.appUnderTestDir))
                "APP_UNDER_TEST_NAME"
                (splitDotHead (osPathBasename p.appUnderTestDir)))
              "XCTEST_BUNDLE_NAME"
              (splitDotHead (osPathBasename p.testBundleDir))) := by
  have hk' : k = "PRODUCT_BUNDLE_IDENTIFIER" ∨ k = "DEVELOPMENT_TEAM"
      ∨ k = "CODE_SIGN_IDENTITY" ∨ k = "PROVISIONING_PROFILE_SPECIFIER"
      ∨ k = "CODE_SIGNING_REQUIRED" := by
    simpa [signingKeys] using hk
  cases htt : p.testType <;>
    rcases hk' with rfl | rfl | rfl | rfl | rfl <;>
      refine ⟨?_, ?_, ?_, ?_, ?_, ?_⟩ <;>
        simp +decide [patchPbxproj, setPbxprojForXcuitest, setPbxprojForXctest,
          setIosDeploymentTarget, hsdk, htt, getKey_setKey]

/-- Witness for C3 at a concrete simulator harness and the code-sign
identity key. -/
theorem simulator_no_signing_witness :
    pSim.sdk = SDK.iphonesimulator
    ∧ "CODE_SIGN_IDENTITY" ∈ signingKeys
    ∧ getKey (patchPbxproj envC pSim objsC).testProjectBuildSettings
        "CODE_SIGN_IDENTITY"
      = getKey objsC.testProjectBuildSettings "CODE_SIGN_IDENTITY"
    ∧ (patchPbxproj envC pSim objsC).xcuitestBundleBuildSettings
      = objsC.xcuitestBundleBuildSettings := by
  have h := simulator_no_signing envC pSim objsC "CODE_SIGN_IDENTITY" rfl
    (by simp [signingKeys])
  exact ⟨rfl, by simp [signingKeys], h.2.2.2.1, h.2.1⟩

/-- C8 (amended): the target/product names and the project-level
`APP_UNDER_TEST_NAME` / `XCUITEST_BUNDLE_NAME` / `XCTEST_BUNDLE_NAME` keys
are set, regardless of SDK, to the portion of the bundle basename before
its FIRST dot (`os.path.basename(...).split('.')[0]`). -/
theorem target_names_from_first_dot (env : Env) (p : DummyProject)
    (objs : PbxprojObjects) :
    (setPbxprojForXcuitest env p objs).appUnderTestTarget
        = ⟨splitDotHead (osPathBasename p.appUnderTestDir),
           splitDotHead (osPathBasename p.appUnderTestDir)⟩
    ∧ (setPbxprojForXcuitest env p objs).xcuitestBundleTarget
        = ⟨splitDotHead (osPathBasename p.testBundleDir),
           splitDotHead (osPathBasename p.testBundleDir)⟩
    ∧ getKey (setPbxprojForXcuitest env p objs).testProjectBuildSettings
          "APP_UNDER_TEST_NAME"
        = some (splitDotHead (osPathBasename p.appUnderTestDir))
    ∧ getKey (setPbxprojForXcuitest env p objs).testProjectBuildSettings
          "XCUITEST_BUNDLE_NAME"
        = some (splitDotHead (osPathBasename p.testBundleDir))
    ∧ (setPbxprojForXctest env p objs).appUnderTestTarget
        = ⟨splitDotHead (osPathBasename p.appUnderTestDir),
           splitDotHead (osPathBasename p.appUnderTestDir)⟩
    ∧ (setPbxprojForXctest env p objs).xctestBundleTarget
        = ⟨splitDotHead (osPathBasename p.testBundleDir),
           splitDotHead (osPathBasename p.testBundleDir)⟩
    ∧ getKey (setPbxprojForXctest env p objs).testProjectBuildSettings
          "APP_UNDER_TEST_NAME"
        = some (splitDotHead (osPathBasename p.appUnderTestDir))
    ∧ getKey (setPbxprojForXctest env p objs).testProjectBuildSettings
          "XCTEST_BUNDLE_NAME"
        = some (splitDotHead (osPathBasename p.testBundleDir)) := by
  refine ⟨?_, ?_, ?_, ?_, ?_, ?_, ?_, ?_⟩ <;>
    simp +decide [setPbxprojForXcuitest, setPbxprojForXctest, getKey_setKey]

/-- Modelled from the spec's words "the basename of the respective bundle
path with its extension stripped" (`os.path.splitext` semantics): the
basename with everything from its last `'.'` on removed, left whole when it
has no dot or when stripping would leave nothing (a pure-extension name). -/
def specBasenameExtStripped (p : String) : String :=
  let b := osPathBasename p
  let root := String.mk (((b.data.reverse.dropWhile (fun c => c ≠ '.')).drop 1).reverse)
  if root = "" then b else root

/-- A concrete harness whose app-under-test basename contains two dots. -/
def pMultiDot : DummyProject :=
  DummyProject.init "/x/my.v2.app" "/y/Tests.xctest" SDK.iphonesimulator
    TestType.xcuitest none

/-- C8 counterexample: for the app bundle `/x/my.v2.app` the code records
the name "my" (text before the first dot), while the basename with its
extension stripped is "my.v2"; the claim as stated is false there. -/
theorem target_names_counterexample :
    (setPbxprojForXcuitest envC pMultiDot objsC).appUnderTestTarget.name = "my"
    ∧ getKey (setPbxprojForXcuitest envC pMultiDot objsC).testProjectBuildSettings
        "APP_UNDER_TEST_NAME" = some "my"
    ∧ specBasenameExtStripped "/x/my.v2.app" = "my.v2"
    ∧ ("my" : String) ≠ "my.v2" := by
  refine ⟨by decide, by decide, by decide, by decide⟩

/-- `_PrepareBuildProductsDir`: copy the app under test and the test bundle
into `builtProductsDir` under their basenames, each only when no entry with
that basename is already there.  `entries` models the basenames present in
`builtProductsDir`; the result is the updated entry list and the copy
effects. -/
def prepareBuildProductsDir (p : DummyProject) (builtProductsDir : String)
    (entries : List String) : List String × List Effect :=
  let appUnderTestName := osPathBasename p.appUnderTestDir
  let testBundleName := osPathBasename p.testBundleDir
  let step1 :=
    if appUnderTestName ∈ entries then (entries, ([] : List Effect))
    else (entries ++ [appUnderTestName],
      [Effect.copytree p.appUnderTestDir
        (osPathJoin builtProductsDir appUnderTestName)])
  let step2 :=
    if testBundleName ∈ step1.1 then (step1.1, ([] : List Effect))
    else (step1.1 ++ [testBundleName],
      [Effect.copytree p.testBundleDir
        (osPathJoin builtProductsDir testBundleName)])
  (step2.1, step1.2 ++ step2.2)

theorem prepareBuildProductsDir_of_mem (p : DummyProject) (dir : String)
    (entries : List String)
    (ha : osPathBasename p.appUnderTestDir ∈ entries)
    (ht : osPathBasename p.testBundleDir ∈ entries) :
    prepareBuildProductsDir p dir entries = (entries, []) := by
  simp [prepareBuildProductsDir, ha, ht]

theorem mem_prepareBuildProductsDir (p : DummyProject) (dir : String)
    (entries : List String) :
    osPathBasename p.appUnderTestDir ∈ (prepareBuildProductsDir p dir entries).1
    ∧ osPathBasename p.testBundleDir ∈ (prepareBuildProductsDir p dir entries).1 := by
  unfold prepareBuildProductsDir
  by_cases ha : osPathBasename p.appUnderTestDir ∈ entries
  · simp only [if_pos ha]
    by_cases ht : osPathBasename p.testBundleDir ∈ entries
    · simp [ha, ht]
    · simp [ha, ht]
  · simp only [if_neg ha]
    by_cases ht : osPathBasename p.testBundleDir
        ∈ entries ++ [osPathBasename p.appUnderTestDir]
    · simp [ht]
    · simp [ht]

/-- C6: input staging is idempotent and never overwrites: staging into a
directory that already holds both basenames changes nothing and performs no
copy, so a second staging into the same directory is a no-op; and staging
never introduces a duplicate basename. -/
theorem prepareBuildProductsDir_idempotent (p : DummyProject) (dir : String)
    (entries : List String) :
    prepareBuildProductsDir p dir ((prepareBuildProductsDir p dir entries).1)
      = ((prepareBuildProductsDir p dir entries).1, ([] : List Effect))
    ∧ (entries.Nodup → ((prepareBuildProductsDir p dir entries).1).Nodup) := by
  constructor
  · exact prepareBuildProductsDir_of_mem p dir _
      (mem_prepareBuildProductsDir p dir entries).1
      (mem_prepareBuildProductsDir p dir entries).2
  · intro hnd
    unfold prepareBuildProductsDir
    by_cases ha : osPathBasename p.appUnderTestDir ∈ entries
    · simp only [if_pos ha]
      by_cases ht : osPathBasename p.testBundleDir ∈ entries
      · simpa [ha, ht] using hnd
      · simp [ha, ht, List.nodup_append, hnd]
    · simp only [if_neg ha]
      by_cases ht : osPathBasename p.testBundleDir
          ∈ entries ++ [osPathBasename p.appUnderTestDir]
      · simp [ht, List.nodup_append, hnd, ha]
      · simp only [if_neg ht]
        simp only [List.mem_append, List.mem_singleton, not_or] at ht
        have hts : ¬osPathBasename p.appUnderTestDir
            = osPathBasename p.testBundleDir := fun hh => ht.2 hh.symm
        simp [List.nodup_append, hnd, ha, ht.1, ht.2, hts]

/-- Witness for C6 at a concrete harness and an initially empty output
directory. -/
theorem prepareBuildProductsDir_idempotent_witness :
    prepareBuildProductsDir pSim "/out"
        ((prepareBuildProductsDir pSim "/out" []).1)
      = ((prepareBuildProductsDir pSim "/out" []).1, ([] : List Effect))
    ∧ ((prepareBuildProductsDir pSim "/out" []).1).Nodup := by
  have h := prepareBuildProductsDir_idempotent pSim "/out" []
  exact ⟨h.1, h.2 List.nodup_nil⟩

/-- Does `needle` occur as a leading segment of `hay`? -/
def charListHasLead : List Char → List Char → Bool
  | [], _ => true
  | _ :: _, [] => false
  | a :: as, b :: bs => a = b && charListHasLead as bs

/-- Does `needle` occur as a contiguous segment of `hay`? -/
def listHasInfix (needle : List Char) : List Char → Bool
  | [] => charListHasLead needle []
  | c :: rest => charListHasLead needle (c :: rest) || listHasInfix needle rest

/-- `'marker' in output`: Python substring containment. -/
def containsSubstring (haystack needle : String) : Bool :=
  listHasInfix needle.data haystack.data

/-- An `FS` oracle on which every path exists. -/
def fsAll : FS := ⟨fun _ => true⟩

/-- `BuildForTesting`: generate if needed, stage the inputs, run
`xcodebuild build-for-testing` (modelled by the subprocess's `exitCode` and
captured combined stdout+stderr `output`).  `subprocess.check_output`
raises `CalledProcessError` on a nonzero exit status; otherwise a
`BuildFailureError` carrying the output is raised exactly when the success
marker is absent from the output. -/
def buildForTesting (env : Env) (fs : FS) (freshTempDir : String)
    (builtProductsDir derivedDataDir : String) (exitCode : Int)
    (output : String) (p : DummyProject) (objs : PbxprojObjects)
    (entries : List String) :
    Except IosError (DummyProject × PbxprojObjects × List String × List Effect) :=
  let genRes := generateDummyProject env fs freshTempDir p objs
  let prepRes := prepareBuildProductsDir p builtProductsDir entries
  let command := ["xcodebuild", "build-for-testing",
    "BUILT_PRODUCTS_DIR=" ++ builtProductsDir,
    "SDKROOT=" ++ p.sdk.toName,
    "-project", ((genRes.1).xcodeprojDirPath).getD "",
    "-scheme", p.testScheme,
    "-derivedDataPath", derivedDataDir]
  if exitCode ≠ 0 then
    Except.error (IosError.calledProcessError exitCode output)
  else if containsSubstring output signalBuildForTestingSucceed then
    Except.ok (genRes.1, genRes.2.1, prepRes.1,
      genRes.2.2 ++ prepRes.2 ++ [Effect.runXcodebuild command])
  else
    Except.error (IosError.buildFailure output)

/-- C4 (amended): a build-failure error carrying the captured output is
raised if and only if the subprocess exit status is zero AND the output
lacks the success marker; on a nonzero exit status `subprocess.check_output`
raises `CalledProcessError` first, whether or not the marker is present. -/
theorem buildForTesting_failure_iff (env : Env) (fs : FS) (freshTempDir : String)
    (builtProductsDir derivedDataDir : String) (exitCode : Int)
    (output : String) (p : DummyProject) (objs : PbxprojObjects)
    (entries : List String) :
    buildForTesting env fs freshTempDir builtProductsDir derivedDataDir
        exitCode output p objs entries
      = Except.error (IosError.buildFailure output)
    ↔ (exitCode = 0
       ∧ containsSubstring output signalBuildForTestingSucceed = false) := by
  unfold buildForTesting
  by_cases hz : exitCode = 0
  · by_cases hm : containsSubstring output signalBuildForTestingSucceed
    · simp [hz, hm]
    · simp [hz, hm]
  · simp [hz]

/-- C4 counterexample: with exit status 1 and empty output (which lacks the
success marker) the call raises `CalledProcessError`, not the build-failure
error, so "build-failure iff marker absent" fails off the zero-exit path. -/
theorem buildForTesting_counterexample :
    containsSubstring "" signalBuildForTestingSucceed = false
    ∧ buildForTesting envC fsAll "/tmp/t" "/out" "/dd" 1 "" pSim objsC []
        = Except.error (IosError.calledProcessError 1 "")
    ∧ buildForTesting envC fsAll "/tmp/t" "/out" "/dd" 1 "" pSim objsC []
        ≠ Except.error (IosError.buildFailure "") := by
  refine ⟨by decide, rfl, ?_⟩
  intro h
  rw [show buildForTesting envC fsAll "/tmp/t" "/out" "/dd" 1 "" pSim objsC []
      = Except.error (IosError.calledProcessError 1 "") from rfl] at h
  simp at h

/-- `RunXcTest`: rejected up front unless the test type is xctest;
otherwise generate if needed, ensure the PlugIns layout on Xcode ≥ 7.3
(`xcodeVersionNumber ≥ 730`), stage the inputs and delegate to the
xcodebuild test executor. -/
def runXcTest (env : Env) (fs : FS) (freshTempDir : String)
    (xcodeVersionNumber : Nat) (deviceId builtProductsDir derivedDataDir : String)
    (p : DummyProject) (objs : PbxprojObjects) (entries : List String) :
    Except IosError (DummyProject × PbxprojObjects × List String × List Effect) :=
  if p.testType ≠ TestType.xctest then
    Except.error (IosError.illegalArgument
      ("Only xctest dummy project is supported to run `xcodebuild test`. "
        ++ "The test type " ++ p.testType.toName ++ " is not supported."))
  else
    let genRes := generateDummyProject env fs freshTempDir p objs
    let pluginEffects : List Effect :=
      if 730 ≤ xcodeVersionNumber then
        let appUnderTestPluginPath := osPathJoin p.appUnderTestDir "PlugIns"
        let testBundleUnderPluginPath :=
          osPathJoin appUnderTestPluginPath (osPathBasename p.testBundleDir)
        (if fs.pathExists appUnderTestPluginPath then []
         else [Effect.mkdir appUnderTestPluginPath]) ++
        (if fs.pathExists testBundleUnderPluginPath then []
         else [Effect.copytree p.testBundleDir testBundleUnderPluginPath])
      else []
    let prepRes := prepareBuildProductsDir p builtProductsDir entries
    let command := ["xcodebuild", "test",
      "BUILT_PRODUCTS_DIR=" ++ builtProductsDir,
      "-project", ((genRes.1).xcodeprojDirPath).getD "",
      "-scheme", p.testScheme,
      "-destination", "id=" ++ deviceId,
      "-derivedDataPath", derivedDataDir]
    Except.ok (genRes.1, genRes.2.1, prepRes.1,
      genRes.2.2 ++ pluginEffects ++ prepRes.2 ++ [Effect.runXcodebuild command])

/-- C5: for a harness whose test type is not xctest, `RunXcTest` returns the
invalid-configuration error immediately: no generation happens and no
filesystem effect is performed (the error carries no effects). -/
theorem runXcTest_rejects_non_xctest (env : Env) (fs : FS)
    (freshTempDir : String) (xcodeVersionNumber : Nat)
    (deviceId builtProductsDir derivedDataDir : String) (p : DummyProject)
    (objs : PbxprojObjects) (entries : List String)
    (h : p.testType ≠ TestType.xctest) :
    runXcTest env fs freshTempDir xcodeVersionNumber deviceId builtProductsDir
        derivedDataDir p objs entries
      = Except.error (IosError.illegalArgument
          ("Only xctest dummy project is supported to run `xcodebuild test`. "
            ++ "The test type " ++ p.testType.toName
            ++ " is not supported.")) := by
  simp [runXcTest, h]

/-- Witness for C5 at a concrete XCUITest-type harness. -/
theorem runXcTest_rejects_non_xctest_witness :
    pDev.testType ≠ TestType.xctest
    ∧ runXcTest envC fsAll "/tmp/t" 830 "dev1" "/out" "/dd" pDev objsC []
      = Except.error (IosError.illegalArgument
          ("Only xctest dummy project is supported to run `xcodebuild test`. "
            ++ "The test type " ++ pDev.testType.toName
            ++ " is not supported.")) := by
  refine ⟨by decide, ?_⟩
  exact runXcTest_rejects_non_xctest envC fsAll "/tmp/t" 830 "dev1" "/out"
    "/dd" pDev objsC [] (by decide)

/-- C9: `Close` deletes nothing for a caller-supplied work directory
(before or after generation), while after auto-allocation (no caller
directory) the deletion flag is set and `Close` removes exactly the
allocated temp directory when it exists. -/
theorem close_deletes_only_auto (env : Env) (fs fs' : FS) (fresh : String)
    (app tb : String) (sdk : SDK) (tt : TestType) (w : String)
    (objs : PbxprojObjects) :
    close fs' (DummyProject.init app tb sdk tt (some w)) = []
    ∧ close fs' ((generateDummyProject env fs fresh
        (DummyProject.init app tb sdk tt (some w)) objs).1) = []
    ∧ close fs' (DummyProject.init app tb sdk tt none) = []
    ∧ ((generateDummyProject env fs fresh
        (DummyProject.init app tb sdk tt none) objs).1).deleteWorkDir = true
    ∧ ((generateDummyProject env fs fresh
        (DummyProject.init app tb sdk tt none) objs).1).workDir = some fresh
    ∧ (fs'.pathExists fresh = true →
        close fs' ((generateDummyProject env fs fresh
          (DummyProject.init app tb sdk tt none) objs).1)
          = [Effect.rmtree fresh]) := by
  refine ⟨rfl, rfl, rfl, rfl, rfl, ?_⟩
  intro hex
  have h1 : ((generateDummyProject env fs fresh
      (DummyProject.init app tb sdk tt none) objs).1).deleteWorkDir = true := rfl
  have h2 : ((generateDummyProject env fs fresh
      (DummyProject.init app tb sdk tt none) objs).1).workDir = some fresh := rfl
  simp [close, h1, h2, hex]

/-- Witness for C9 at a concrete auto-allocated harness (temp dir exists)
and a concrete caller-supplied harness. -/
theorem close_deletes_only_auto_witness :
    fsAll.pathExists "/tmp/fresh1" = true
    ∧ close fsAll ((generateDummyProject envC fsAll "/tmp/fresh1"
        (DummyProject.init "/x/App.app" "/y/T.xctest" SDK.iphonesimulator
          TestType.xcuitest none) objsC).1)
      = [Effect.rmtree "/tmp/fresh1"]
    ∧ close fsAll (DummyProject.init "/x/App.app" "/y/T.xctest"
        SDK.iphonesimulator TestType.xcuitest (some "/w")) = [] := by
  have h := close_deletes_only_auto envC fsAll fsAll "/tmp/fresh1" "/x/App.app"
    "/y/T.xctest" SDK.iphonesimulator TestType.xcuitest "/w" objsC
  exact ⟨rfl, h.2.2.2.2.2 rfl, h.1⟩

/-- `full` lies under `pre`: `pre` is a leading segment of `full`. -/
def isUnder (pre full : String) : Prop := ∃ s, full.data = pre.data ++ s

theorem string_data_append (a b : String) : (a ++ b).data = a.data ++ b.data := by
  cases a
  cases b
  rfl

theorem isUnder_osPathJoin (a b : String) (hb : b.data.head? ≠ some '/') :
    isUnder a (osPathJoin a b) := by
  unfold osPathJoin
  rw [if_neg hb]
  by_cases h2 : a = "" ∨ a.data.getLast? = some '/'
  · rw [if_pos h2]
    exact ⟨b.data, string_data_append a b⟩
  · rw [if_neg h2]
    refine ⟨'/' :: b.data, ?_⟩
    rw [string_data_append, string_data_append]
    simp

theorem isUnder_trans (a b c : String) (h1 : isUnder a b) (h2 : isUnder b c) :
    isUnder a c := by
  obtain ⟨s, hs⟩ := h1
  obtain ⟨t, ht⟩ := h2
  exact ⟨s ++ t, by rw [ht, hs, List.append_assoc]⟩

theorem mkdir_effect_of_not_exists (env : Env) (fs : FS) (fresh : String)
    (p : DummyProject) (objs : PbxprojObjects) (wd : String)
    (hgen : p.isDummyProjectGenerated = false) (hwd : p.workDir = some wd)
    (hex : fs.pathExists wd = false) :
    Effect.mkdir wd ∈ (generateDummyProject env fs fresh p objs).2.2 := by
  simp [generateDummyProject, hgen, hwd, hex]

/-- C10: for a caller-supplied work directory `w` the effective work
directory is `w/dummy_project` (an `mkdir` of it is performed when absent),
and the generated project tree, pbxproj descriptor path and scheme path all
lie under `w/dummy_project`. -/
theorem supplied_workdir_layout (env : Env) (fs : FS) (fresh : String)
    (app tb : String) (sdk : SDK) (tt : TestType) (w : String)
    (objs : PbxprojObjects) :
    ((generateDummyProject env fs fresh
        (DummyProject.init app tb sdk tt (some w)) objs).1).workDir
      = some (osPathJoin w "dummy_project")
    ∧ ((generateDummyProject env fs fresh
        (DummyProject.init app tb sdk tt (some w)) objs).1).dummyProjectPath
      = some (osPathJoin (osPathJoin w "dummy_project") "TestProject")
    ∧ isUnder (osPathJoin w "dummy_project")
        (osPathJoin (osPathJoin w "dummy_project") "TestProject")
    ∧ ((generateDummyProject env fs fresh
        (DummyProject.init app tb sdk tt (some w)) objs).1).pbxprojFilePath
      = some (osPathJoin
          (osPathJoin (osPathJoin (osPathJoin w "dummy_project") "TestProject")
            "TestProject.xcodeproj")
          "project.pbxproj")
    ∧ isUnder (osPathJoin w "dummy_project")
        (osPathJoin
          (osPathJoin (osPathJoin (osPathJoin w "dummy_project") "TestProject")
            "TestProject.xcodeproj")
          "project.pbxproj")
    ∧ ((generateDummyProject env fs fresh
        (DummyProject.init app tb sdk tt (some w)) objs).1).testSchemePath
      = some (osPathJoin
          (osPathJoin
            (osPathJoin (osPathJoin (osPathJoin w "dummy_project") "TestProject")
              "TestProject.xcodeproj")
            "xcshareddata/xcschemes")
          (testSchemeName tt ++ ".xcscheme"))
    ∧ isUnder (osPathJoin w "dummy_project")
        (osPathJoin
          (osPathJoin
            (osPathJoin (osPathJoin (osPathJoin w "dummy_project") "TestProject")
              "TestProject.xcodeproj")
            "xcshareddata/xcschemes")
          (testSchemeName tt ++ ".xcscheme"))
    ∧ (fs.pathExists (osPathJoin w "dummy_project") = false →
        Effect.mkdir (osPathJoin w "dummy_project")
          ∈ (generateDummyProject env fs fresh
              (DummyProject.init app tb sdk tt (some w)) objs).2.2) := by
  have hTP : isUnder (osPathJoin w "dummy_project")
      (osPathJoin (osPathJoin w "dummy_project") "TestProject") :=
    isUnder_osPathJoin _ "TestProject" (by decide)
  have hXC : isUnder (osPathJoin w "dummy_project")
      (osPathJoin (osPathJoin (osPathJoin w "dummy_project") "TestProject")
        "TestProject.xcodeproj") :=
    isUnder_trans _ _ _ hTP (isUnder_osPathJoin _ "TestProject.xcodeproj" (by decide))
  have hPBX : isUnder (osPathJoin w "dummy_project")
      (osPathJoin
        (osPathJoin (osPathJoin (osPathJoin w "dummy_project") "TestProject")
          "TestProject.xcodeproj")
        "project.pbxproj") :=
    isUnder_trans _ _ _ hXC (isUnder_osPathJoin _ "project.pbxproj" (by decide))
  have hXS : isUnder (osPathJoin w "dummy_project")
      (osPathJoin
        (osPathJoin (osPathJoin (osPathJoin w "dummy_project") "TestProject")
          "TestProject.xcodeproj")
        "xcshareddata/xcschemes") :=
    isUnder_trans _ _ _ hXC
      (isUnder_osPathJoin _ "xcshareddata/xcschemes" (by decide))
  have hSchemeHead : (testSchemeName tt ++ ".xcscheme").data.head? ≠ some '/' := by
    cases tt <;> decide
  have hSchemePath : isUnder (osPathJoin w "dummy_project")
      (osPathJoin
        (osPathJoin
          (osPathJoin (osPathJoin (osPathJoin w "dummy_project") "TestProject")
            "TestProject.xcodeproj")
          "xcshareddata/xcschemes")
        (testSchemeName tt ++ ".xcscheme")) :=
    isUnder_trans _ _ _ hXS
      (isUnder_osPathJoin _ (testSchemeName tt ++ ".xcscheme") hSchemeHead)
  exact ⟨rfl, rfl, hTP, rfl, hPBX, rfl, hSchemePath,
    fun hex => mkdir_effect_of_not_exists env fs fresh _ objs _ rfl rfl hex⟩

/-- Witness for C10 at a concrete supplied directory (absent on the
filesystem, so the `mkdir` effect is performed). -/
theorem supplied_workdir_layout_witness :
    ((generateDummyProject envC ⟨fun _ => false⟩ "/tmp/f"
        (DummyProject.init "/x/App.app" "/y/T.xctest" SDK.iphonesimulator
          TestType.xcuitest (some "/w")) objsC).1).workDir
      = some (osPathJoin "/w" "dummy_project")
    ∧ (⟨fun _ => false⟩ : FS).pathExists (osPathJoin "/w" "dummy_project") = false
    ∧ Effect.mkdir (osPathJoin "/w" "dummy_project")
        ∈ (generateDummyProject envC ⟨fun _ => false⟩ "/tmp/f"
            (DummyProject.init "/x/App.app" "/y/T.xctest" SDK.iphonesimulator
              TestType.xcuitest (some "/w")) objsC).2.2 := by
  have h := supplied_workdir_layout envC ⟨fun _ => false⟩ "/tmp/f" "/x/App.app"
    "/y/T.xctest" SDK.iphonesimulator TestType.xcuitest "/w" objsC
  exact ⟨h.1, rfl, h.2.2.2.2.2.2.2 rfl⟩

/-- An XML element as manipulated through `xml.etree.ElementTree`: a tag,
an attribute dictionary, and a list of child elements. -/
inductive Xml where
  | elem (tag : String) (attrs : List (String × String)) (children : List Xml)

/-- The element's tag. -/
def Xml.tag : Xml → String
  | .elem t _ _ => t

/-- The element's attribute dictionary. -/
def Xml.attrs : Xml → List (String × String)
  | .elem _ a _ => a

/-- The element's children. -/
def Xml.children : Xml → List Xml
  | .elem _ _ c => c

/-- `element.set(k, v)`. -/
def Xml.setAttr : Xml → String → String → Xml
  | .elem t a c, k, v => .elem t (setKey a k v) c

/-- `ET.SubElement(element, ...)`: appends a child. -/
def Xml.appendChild : Xml → Xml → Xml
  | .elem t a c, child => .elem t a (c ++ [child])

/-- `root.find(tag)`: the first direct child with the given tag. -/
def findChild (x : Xml) (tag : String) : Option Xml :=
  x.children.find? (fun c => c.tag == tag)

/-- In-place mutation of the element `find` returned: replace the first
child with the given tag. -/
def replaceFirstChild (tag : String) (f : Xml → Xml) : List Xml → List Xml
  | [] => []
  | c :: cs => if c.tag == tag then f c :: cs else c :: replaceFirstChild tag f cs

/-- How many children carry the given tag. -/
def countTag (l : List Xml) (tag : String) : Nat :=
  (l.filter (fun c => c.tag == tag)).length

/-- `SetEnvVars` as it acts on the parsed scheme document: a no-op on an
empty dict; otherwise sets `shouldUseLaunchSchemeArgsEnv` to `'NO'` on the
`TestAction` element and appends to it one `EnvironmentVariables` container
with one `EnvironmentVariable` child per entry carrying `key`, `value` and
`isEnabled='YES'` attributes (in that order).  `none` models the
`AttributeError` raised when the scheme has no `TestAction`.  (The dict is
modelled as the list of its items in iteration order; the generate-if-needed
step and the rewrite of the file are outside this pure tree transform.) -/
def setEnvVars (envVars : List (String × String)) (root : Xml) : Option Xml :=
  if envVars.isEmpty then some root
  else
    match findChild root "TestAction" with
    | none => none
    | some _ =>
      some (Xml.elem root.tag root.attrs
        (replaceFirstChild "TestAction"
          (fun ta =>
            (ta.setAttr "shouldUseLaunchSchemeArgsEnv" "NO").appendChild
              (Xml.elem "EnvironmentVariables" []
                (envVars.map (fun kv =>
                  Xml.elem "EnvironmentVariable"
                    [("key", kv.1), ("value", kv.2), ("isEnabled", "YES")] []))))
          root.children))

theorem find_replaceFirstChild (t : String) (f : Xml → Xml)
    (hf : ∀ x, (f x).tag = x.tag) :
    ∀ (l : List Xml) (ta : Xml), l.find? (fun c => c.tag == t) = some ta →
      (replaceFirstChild t f l).find? (fun c => c.tag == t) = some (f ta) := by
  intro l
  induction l with
  | nil => intro ta h; simp at h
  | cons c cs ih =>
    intro ta h
    cases hc : (c.tag == t) with
    | true =>
      have hfc : ((f c).tag == t) = true := by rw [hf c]; exact hc
      simp only [List.find?, hc] at h
      rw [replaceFirstChild, if_pos hc]
      simp only [List.find?, hfc]
      rw [Option.some_inj] at h
      rw [h]
    | false =>
      simp only [List.find?, hc] at h
      rw [replaceFirstChild, if_neg (by rw [hc]; exact Bool.false_ne_true)]
      simp only [List.find?, hc]
      exact ih ta h

/-- C7 (amended): for a non-empty environment map, one `SetEnvVars` call
appends to the scheme's `TestAction` exactly one `EnvironmentVariables`
container holding one child per map entry with attributes `key`, `value`
and `isEnabled` (`isEnabled` always `'YES'`), and sets the `TestAction`'s
`shouldUseLaunchSchemeArgsEnv` attribute to `'NO'`. -/
theorem setEnvVars_appends_one_container (envVars : List (String × String))
    (root ta : Xml) (hne : envVars ≠ [])
    (hta : findChild root "TestAction" = some ta) :
    ∃ r ta', setEnvVars envVars root = some r
      ∧ findChild r "TestAction" = some ta'
      ∧ ta'.children = ta.children ++
          [Xml.elem "EnvironmentVariables" []
            (envVars.map (fun kv =>
              Xml.elem "EnvironmentVariable"
                [("key", kv.1), ("value", kv.2), ("isEnabled", "YES")] []))]
      ∧ getKey ta'.attrs "shouldUseLaunchSchemeArgsEnv" = some "NO"
      ∧ countTag ta'.children "EnvironmentVariables"
          = countTag ta.children "EnvironmentVariables" + 1 := by
  have hnempty : envVars.isEmpty = false := by
    cases envVars with
    | nil => exact absurd rfl hne
    | cons a l => rfl
  have hf : ∀ x, ((fun ta0 : Xml =>
      (ta0.setAttr "shouldUseLaunchSchemeArgsEnv" "NO").appendChild
        (Xml.elem "EnvironmentVariables" []
          (envVars.map (fun kv =>
            Xml.elem "EnvironmentVariable"
              [("key", kv.1), ("value", kv.2), ("isEnabled", "YES")] [])))) x).tag
      = x.tag := by
    intro x
    cases x
    rfl
  refine ⟨Xml.elem root.tag root.attrs
      (replaceFirstChild "TestAction"
        (fun ta0 =>
          (ta0.setAttr "shouldUseLaunchSchemeArgsEnv" "NO").appendChild
            (Xml.elem "EnvironmentVariables" []
              (envVars.map (fun kv =>
                Xml.elem "EnvironmentVariable"
                  [("key", kv.1), ("value", kv.2), ("isEnabled", "YES")] []))))
        root.children),
    (ta.setAttr "shouldUseLaunchSchemeArgsEnv" "NO").appendChild
      (Xml.elem "EnvironmentVariables" []
        (envVars.map (fun kv =>
          Xml.elem "EnvironmentVariable"
            [("key", kv.1), ("value", kv.2), ("isEnabled", "YES")] []))),
    ?_, ?_, ?_, ?_, ?_⟩
  · rw [setEnvVars, if_neg (by rw [hnempty]; exact Bool.false_ne_true), hta]
  · unfold findChild at hta ⊢
    exact find_replaceFirstChild "TestAction" _ hf root.children ta hta
  · cases ta
    simp [Xml.setAttr, Xml.appendChild, Xml.children]
  · cases ta
    simp [Xml.setAttr, Xml.appendChild, Xml.attrs, getKey_setKey]
  · cases ta
    simp [Xml.setAttr, Xml.appendChild, Xml.children, countTag,
      List.filter_append, Xml.tag]

/-- A concrete scheme document with one `TestAction`. -/
def schemeRoot0 : Xml :=
  Xml.elem "Scheme" []
    [Xml.elem "TestAction" [("shouldUseLaunchSchemeArgsEnv", "YES")] []]

/-- Witness for C7 at the two-entry map of the spec's example. -/
theorem setEnvVars_appends_one_container_witness :
    ([("A", "1"), ("B", "2")] : List (String × String)) ≠ []
    ∧ findChild schemeRoot0 "TestAction"
      = some (Xml.elem "TestAction" [("shouldUseLaunchSchemeArgsEnv", "YES")] [])
    ∧ ∃ r ta', setEnvVars [("A", "1"), ("B", "2")] schemeRoot0 = some r
      ∧ findChild r "TestAction" = some ta'
      ∧ ta'.children
        = (Xml.elem "TestAction" [("shouldUseLaunchSchemeArgsEnv", "YES")]
            []).children ++
          [Xml.elem "EnvironmentVariables" []
            (([("A", "1"), ("B", "2")] : List (String × String)).map (fun kv =>
              Xml.elem "EnvironmentVariable"
                [("key", kv.1), ("value", kv.2), ("isEnabled", "YES")] []))]
      ∧ getKey ta'.attrs "shouldUseLaunchSchemeArgsEnv" = some "NO"
      ∧ countTag ta'.children "EnvironmentVariables"
        = countTag (Xml.elem "TestAction"
            [("shouldUseLaunchSchemeArgsEnv", "YES")] []).children
            "EnvironmentVariables" + 1 := by
  refine ⟨by simp, rfl, ?_⟩
  exact setEnvVars_appends_one_container [("A", "1"), ("B", "2")] schemeRoot0
    (Xml.elem "TestAction" [("shouldUseLaunchSchemeArgsEnv", "YES")] [])
    (by simp) rfl

/-- C7 counterexample: at the spec's own example input the produced child
entries carry the attribute name `isEnabled`, not `enabled`; with
"attributes matching exactly", the claim as stated is false at this
input. -/
theorem setEnvVars_attr_name_counterexample :
    setEnvVars [("A", "1"), ("B", "2")] schemeRoot0
      = some (Xml.elem "Scheme" []
          [Xml.elem "TestAction" [("shouldUseLaunchSchemeArgsEnv", "NO")]
            [Xml.elem "EnvironmentVariables" []
              [Xml.elem "EnvironmentVariable"
                [("key", "A"), ("value", "1"), ("isEnabled", "YES")] [],
               Xml.elem "EnvironmentVariable"
                [("key", "B"), ("value", "2"), ("isEnabled", "YES")] []]]])
    ∧ getKey [("key", "A"), ("value", "1"), ("isEnabled", "YES")] "enabled" = none
    ∧ getKey [("key", "A"), ("value", "1"), ("isEnabled", "YES")] "isEnabled"
      = some "YES" := by
  exact ⟨rfl, by decide, by decide⟩

end DummyProjectModel
